import Mathlib

/-!
# Verification of `int2en.py`

A shallow embedding of the integer-to-English renderer `int2en.py`:
scale vocabularies (`ShortScale`, `LongScale`), the suffix morphology
engine (`st`, `th`, `teen`, `ty`), the digit tables (`_0_to_9`,
`_10_to_19`, `tens`) and the recursive renderer `int2en`.

Python strings are modelled as Lean `String`; `str.endswith` and the
guarded `str.removesuffix` calls are modelled on the character list of
the string (`strEndsWith`, `strDropRight`).  The Python `print` of the
overflow diagnostic is modelled by returning, next to the rendered
string, the list of diagnostic lines printed during the call.  The
`assert negative_or_minus in ('negative', 'minus')` is modelled by an
`Option` result: `none` is the `AssertionError`.
-/

namespace Int2En

/-- `Cardinal, Ordinal = 0, 1` in the source: the two rendering modes. -/
inductive NumType where
  | Cardinal : NumType
  | Ordinal : NumType
deriving DecidableEq, Repr

export NumType (Cardinal Ordinal)

/-- Models Python `s.endswith(t)` on the character list of the string. -/
def strEndsWith (s t : String) : Bool :=
  t.data.isSuffixOf s.data

/-- Drop the last `n` characters of `s`.  Models Python
`s.removesuffix(t)` at the call sites of `int2en.py`, where the call is
always guarded by `s.endswith(t)` (or by `s.endswith(u)` for a longer
`u` ending in `t`), so removing the suffix is dropping `t.length`
characters. -/
def strDropRight (s : String) (n : Nat) : String :=
  ⟨s.data.take (s.data.length - n)⟩

/-- The ordinal suffix `st`, which occurs only in `first`; its
`__radd__` is the generic concatenation. -/
def st (root : String) : String :=
  root ++ "st"

/-- The ordinal suffix `th`: `root + th()` with the irregular-ending
rules of `th.__radd__` (`five`→`fifth`, `nine`→`ninth`,
`eight`→`eighth`, `sixty`→`sixtieth`), generic concatenation
otherwise. -/
def th (root : String) : String :=
  if strEndsWith root "ve" then strDropRight root 2 ++ "fth"
  else if strEndsWith root "ne" then strDropRight root 1 ++ "th"
  else if strEndsWith root "ght" then strDropRight root 1 ++ "th"
  else if strEndsWith root "y" then strDropRight root 1 ++ "ieth"
  else root ++ "th"

/-- The suffix `teen`: `root + teen()` with the irregular-ending rules
of `teen.__radd__` (`five`→`fifteen`, `eight`→`eighteen`), generic
concatenation otherwise. -/
def teen (root : String) : String :=
  if strEndsWith root "ve" then strDropRight root 2 ++ "fteen"
  else if strEndsWith root "ght" then strDropRight root 1 ++ "teen"
  else root ++ "teen"

/-- The suffix `ty`: `root + ty()` with the irregular-ending rules of
`ty.__radd__` (`five`→`fifty`, `eight`→`eighty`), generic concatenation
otherwise. -/
def ty (root : String) : String :=
  if strEndsWith root "ve" then strDropRight root 2 ++ "fty"
  else if strEndsWith root "ght" then strDropRight root 1 ++ "ty"
  else root ++ "ty"

/-- The `Cardinal` column of the `_0_to_9` table. -/
def card0to9 : Nat → String
  | 0 => "zero"
  | 1 => "one"
  | 2 => "two"
  | 3 => "three"
  | 4 => "four"
  | 5 => "five"
  | 6 => "six"
  | 7 => "seven"
  | 8 => "eight"
  | 9 => "nine"
  | _ => ""

/-- The `Ordinal` column of the `_0_to_9` table: `zero + th()`,
`fir + st()`, the literals `second` and `third`, and `card + th()` for
the rest, exactly as built in the source. -/
def ord0to9 : Nat → String
  | 0 => th "zero"
  | 1 => st "fir"
  | 2 => "second"
  | 3 => "third"
  | n => th (card0to9 n)

/-- The `_0_to_9` lookup table of the source. -/
def _0_to_9 (r : Nat) (co : NumType) : String :=
  match co with
  | Cardinal => card0to9 r
  | Ordinal => ord0to9 r

/-- The `Cardinal` column of the `_10_to_19` table: teens built from
the ones roots (with `3 ↦ thir`) via `+ teen()`, then the overrides
`ten`, `eleven`, `twelve`. -/
def teenCard : Nat → String
  | 0 => "ten"
  | 1 => "eleven"
  | 2 => "twelve"
  | 3 => teen "thir"
  | n => teen (card0to9 n)

/-- The `_10_to_19` lookup table: the `Ordinal` column is
`card + th()`. -/
def _10_to_19 (r : Nat) (co : NumType) : String :=
  match co with
  | Cardinal => teenCard r
  | Ordinal => th (teenCard r)

/-- The `tens` lookup table: roots (with `2 ↦ twen`, `3 ↦ thir`,
`4 ↦ for`) via `+ ty()`, then the override `1 ↦ ten`
(`_10_to_19[0][Cardinal]`). -/
def tens : Nat → String
  | 1 => teenCard 0
  | 2 => ty "twen"
  | 3 => ty "thir"
  | 4 => ty "for"
  | n => ty (card0to9 n)

/-- `Scale.grouping = 3`. -/
def grouping : Nat := 3

/-- `Scale.vocabulary()`: the base vocabulary shared by all scales. -/
def baseVocabulary : List (Nat × String) :=
  [(100, "hundred"), (1000, "thousand")]

/-- `Scale.prefixes`: the large-number name roots, indexed 1–12. -/
def prefixes : List (Nat × String) :=
  [(1, "m"), (2, "b"), (3, "tr"), (4, "quadr"), (5, "quint"),
   (6, "sext"), (7, "sept"), (8, "oct"), (9, "non"), (10, "dec"),
   (11, "undec"), (12, "duodec")]

/-- `ShortScale.illion(n)`: the exponent `grouping * n + grouping`,
i.e. an `n`-illion is `10 ** (3 * n + 3)`. -/
def ShortScale.illion (n : Nat) : Nat :=
  grouping * n + grouping

/-- `ShortScale.vocabulary()`: base vocabulary plus
`10 ** illion(n) ↦ {prefix}illion` for each prefix.  The Python dict
union `|` is modelled by list append; the key sets are disjoint. -/
def ShortScale.vocabulary : List (Nat × String) :=
  baseVocabulary ++
    prefixes.map (fun np => (10 ^ ShortScale.illion np.1, np.2 ++ "illion"))

/-- `LongScale.illion(n)`: the exponent `2 * grouping * n`, i.e. an
`n`-illion is `10 ** (6 * n)`. -/
def LongScale.illion (n : Nat) : Nat :=
  2 * grouping * n

/-- `LongScale.illiard(n)`: the exponent `2 * grouping * n + grouping`,
i.e. an `n`-illiard is `10 ** (6 * n + 3)`, a thousand `n`-illion. -/
def LongScale.illiard (n : Nat) : Nat :=
  2 * grouping * n + grouping

/-- `LongScale.vocabulary()`: base vocabulary plus the `illion` and
`illiard` entries for each prefix. -/
def LongScale.vocabulary : List (Nat × String) :=
  baseVocabulary ++
    prefixes.map (fun np => (10 ^ LongScale.illion np.1, np.2 ++ "illion")) ++
    prefixes.map (fun np => (10 ^ LongScale.illiard np.1, np.2 ++ "illiard"))

/-- The `scale` argument of `int2en`: one of the two `Scale`
subclasses. -/
inductive ScaleCls where
  | shortScale : ScaleCls
  | longScale : ScaleCls
deriving DecidableEq, Repr

/-- The `vocabulary()` classmethod of the given scale class. -/
def ScaleCls.vocabulary : ScaleCls → List (Nat × String)
  | .shortScale => ShortScale.vocabulary
  | .longScale => LongScale.vocabulary

/-- `Scale.relevant_vocabulary(x)`: the vocabulary items whose
power of ten is no greater than `x`. -/
def relevant_vocabulary (voc : List (Nat × String)) (x : Nat) :
    List (Nat × String) :=
  voc.filter (fun e => e.1 ≤ x)

/-- One step of Python `max` over `(key, value)` pairs: keep the pair
with the greater key.  Keys are unique in every vocabulary, so the
value component never decides the comparison. -/
def maxStep (a b : Nat × String) : Nat × String :=
  if a.1 < b.1 then b else a

/-- `max(d.items())` over a vocabulary, as a fold.  The initial pair
`(0, "")` is below every vocabulary key; `int2en` only calls this on a
non-empty relevant vocabulary (inputs `≥ 100`), matching the source,
where `max` of an empty dict would raise. -/
def maxItem (l : List (Nat × String)) : Nat × String :=
  l.foldl maxStep (0, "")

/-- The keyword configuration of `int2en`, minus `cardinal_or_ordinal`
(threaded separately, since recursive calls override it). -/
structure Config where
  scale : ScaleCls
  two_digit_linker : String
  thousands_separator : String
  do_say_and : Bool
  do_warn : Bool
  negative_or_minus : String
deriving DecidableEq, Repr

/-- The default keyword arguments of `int2en`. -/
def defaultCfg : Config :=
  { scale := .shortScale
    two_digit_linker := "-"
    thousands_separator := ","
    do_say_and := true
    do_warn := false
    negative_or_minus := "negative" }

/-- The overflow diagnostic line printed by `int2en`. -/
def overflowMsg (i q p r : Nat) : String :=
  "Overflow: " ++ toString i ++ " = " ++ toString q ++ " × " ++
    toString p ++ " + " ++ toString r

theorem fst_le_foldl_maxStep (l : List (Nat × String)) (a : Nat × String) :
    a.1 ≤ (l.foldl maxStep a).1 := by
  induction l generalizing a with
  | nil => exact Nat.le_refl _
  | cons b t ih =>
      refine Nat.le_trans ?_ (ih (maxStep a b))
      unfold maxStep
      split
      · exact Nat.le_of_lt (by assumption)
      · exact Nat.le_refl _

theorem fst_mem_le_foldl_maxStep (l : List (Nat × String))
    (a b : Nat × String) (hb : b ∈ l) : b.1 ≤ (l.foldl maxStep a).1 := by
  induction l generalizing a with
  | nil => cases hb
  | cons c t ih =>
      rcases List.mem_cons.mp hb with h | h
      · subst h
        refine Nat.le_trans ?_ (fst_le_foldl_maxStep t (maxStep a b))
        unfold maxStep
        split
        · exact Nat.le_refl _
        · exact Nat.le_of_not_lt (by assumption)
      · exact ih (maxStep a c) h

theorem foldl_maxStep_mem (l : List (Nat × String)) (a : Nat × String) :
    l.foldl maxStep a = a ∨ l.foldl maxStep a ∈ l := by
  induction l generalizing a with
  | nil => exact Or.inl rfl
  | cons b t ih =>
      rcases ih (maxStep a b) with h | h
      · rw [List.foldl_cons, h]
        unfold maxStep
        split
        · exact Or.inr (List.mem_cons_self _ _)
        · exact Or.inl rfl
      · exact Or.inr (List.mem_cons_of_mem _ h)

/-- Every scale's vocabulary contains the base entry `(100, hundred)`. -/
theorem hundred_mem_vocabulary (sc : ScaleCls) :
    (100, "hundred") ∈ sc.vocabulary := by
  cases sc <;> exact List.mem_append_left _ (List.mem_cons_self _ _)

/-- Every vocabulary key is at least `100`. -/
theorem vocabulary_key_ge_100 (sc : ScaleCls) :
    ∀ e ∈ sc.vocabulary, 100 ≤ e.1 := by
  cases sc <;> decide

/-- Bounds on the greatest relevant vocabulary item selected by
`int2en` for an input `n ≥ 100`: its power of ten lies in
`[100, n]`. -/
theorem maxItem_relevant_bounds (sc : ScaleCls) (n : Nat) (hn : 100 ≤ n) :
    100 ≤ (maxItem (relevant_vocabulary sc.vocabulary n)).1 ∧
      (maxItem (relevant_vocabulary sc.vocabulary n)).1 ≤ n := by
  constructor
  · refine fst_mem_le_foldl_maxStep _ _ (100, "hundred") ?_
    exact List.mem_filter.mpr ⟨hundred_mem_vocabulary sc, by simpa using hn⟩
  · rcases foldl_maxStep_mem (relevant_vocabulary sc.vocabulary n) (0, "") with
      h | h
    · rw [maxItem, h]; exact Nat.zero_le _
    · exact by simpa using (List.mem_filter.mp h).2

/-- The recursive renderer `int2en` on a non-negative input, after the
`divmod(i, base)` split (`base = 10`).  Returns the rendered string
together with the list of overflow diagnostics printed during the call
(the source prints them; the string result is unaffected).  The branch
structure follows the source line by line: direct table lookups for
0–9 and 10–19, the tens/linker branch for 20–99, and, for 100+, the
greatest relevant vocabulary item, the overflow diagnostic, the
cardinal quotient before the scale name, and the separator choice for
a nonzero remainder. -/
def int2enNat (cfg : Config) (co : NumType) (n : Nat) : String × List String :=
  if n / 10 = 0 then (_0_to_9 (n % 10) co, [])
  else if n / 10 = 1 then (_10_to_19 (n % 10) co, [])
  else if n / 10 < 10 then
    let part1 := tens (n / 10)
    if n % 10 = 0 then
      (if co = Ordinal then th part1 else part1, [])
    else
      let part2 := int2enNat cfg co (n % 10)
      (part1 ++ cfg.two_digit_linker ++ part2.1, part2.2)
  else
    let pn := maxItem (relevant_vocabulary cfg.scale.vocabulary n)
    let q := n / pn.1
    let r := n % pn.1
    let warn : List String :=
      if cfg.do_warn = true ∧ pn.1 ≤ q then [overflowMsg n q pn.1 r] else []
    let hd := int2enNat cfg Cardinal q
    let part1 := hd.1 ++ " " ++ pn.2
    if r = 0 then
      (if co = Ordinal then th part1 else part1, warn ++ hd.2)
    else
      let part2 := int2enNat cfg co r
      (if relevant_vocabulary cfg.scale.vocabulary r ≠ [] then
          part1 ++ cfg.thousands_separator ++ " " ++ part2.1
        else if cfg.do_say_and = true then part1 ++ " and " ++ part2.1
        else part1 ++ " " ++ part2.1,
       warn ++ hd.2 ++ part2.2)
termination_by n
decreasing_by
  · omega
  · have hn : 100 ≤ n := by omega
    have hb := maxItem_relevant_bounds cfg.scale n hn
    show n / (maxItem (relevant_vocabulary cfg.scale.vocabulary n)).1 < n
    exact Nat.div_lt_self (by omega) (by omega)
  · have hn : 100 ≤ n := by omega
    have hb := maxItem_relevant_bounds cfg.scale n hn
    show n % (maxItem (relevant_vocabulary cfg.scale.vocabulary n)).1 < n
    have hm : n % (maxItem (relevant_vocabulary cfg.scale.vocabulary n)).1
        < (maxItem (relevant_vocabulary cfg.scale.vocabulary n)).1 :=
      Nat.mod_lt n (by omega)
    omega

/-- `int2en(i, ...)`: the top-level renderer on integers.  A negative
input asserts that the negation word is recognized (modelled by
`none` on failure) and prepends `negative_or_minus` and a space to the
rendering of `-i`; a non-negative input is rendered by `int2enNat`. -/
def int2en (cfg : Config) (co : NumType) (i : Int) :
    Option (String × List String) :=
  if i < 0 then
    if cfg.negative_or_minus = "negative" ∨ cfg.negative_or_minus = "minus"
    then
      (int2en cfg co (-i)).map
        (fun sw => (cfg.negative_or_minus ++ " " ++ sw.1, sw.2))
    else none
  else some (int2enNat cfg co i.toNat)
termination_by 2 * i.natAbs + (if i < 0 then 1 else 0)
decreasing_by
  simp only [Int.natAbs_neg]
  split_ifs <;> omega

/-- Fuel-indexed evaluator for `int2enNat`: the same body, with the
fuel decreasing at each recursive call.  `int2enFuel_eq` below shows
that with fuel above `n` it computes `int2enNat`; it exists so that
concrete renderings reduce inside the kernel. -/
def int2enFuel : Nat → Config → NumType → Nat → String × List String
  | 0, _, _, _ => ("", [])
  | fuel + 1, cfg, co, n =>
    if n / 10 = 0 then (_0_to_9 (n % 10) co, [])
    else if n / 10 = 1 then (_10_to_19 (n % 10) co, [])
    else if n / 10 < 10 then
      let part1 := tens (n / 10)
      if n % 10 = 0 then
        (if co = Ordinal then th part1 else part1, [])
      else
        let part2 := int2enFuel fuel cfg co (n % 10)
        (part1 ++ cfg.two_digit_linker ++ part2.1, part2.2)
    else
      let pn := maxItem (relevant_vocabulary cfg.scale.vocabulary n)
      let q := n / pn.1
      let r := n % pn.1
      let warn : List String :=
        if cfg.do_warn = true ∧ pn.1 ≤ q then [overflowMsg n q pn.1 r] else []
      let hd := int2enFuel fuel cfg Cardinal q
      let part1 := hd.1 ++ " " ++ pn.2
      if r = 0 then
        (if co = Ordinal then th part1 else part1, warn ++ hd.2)
      else
        let part2 := int2enFuel fuel cfg co r
        (if relevant_vocabulary cfg.scale.vocabulary r ≠ [] then
            part1 ++ cfg.thousands_separator ++ " " ++ part2.1
          else if cfg.do_say_and = true then part1 ++ " and " ++ part2.1
          else part1 ++ " " ++ part2.1,
         warn ++ hd.2 ++ part2.2)

/-- With fuel above `n`, the fuel-indexed evaluator agrees with
`int2enNat`. -/
theorem int2enFuel_eq (fuel : Nat) :
    ∀ n : Nat, n < fuel → ∀ (cfg : Config) (co : NumType),
      int2enFuel fuel cfg co n = int2enNat cfg co n := by
  induction fuel with
  | zero => intro n h; omega
  | succ f ih =>
    intro n hn cfg co
    by_cases h0 : n / 10 = 0
    · conv_rhs => rw [int2enNat]
      simp [int2enFuel, h0]
    · by_cases h1 : n / 10 = 1
      · conv_rhs => rw [int2enNat]
        simp [int2enFuel, h0, h1]
      · by_cases h2 : n / 10 < 10
        · have hr : n % 10 < f := by omega
          conv_rhs => rw [int2enNat]
          simp [int2enFuel, h0, h1, h2, ih (n % 10) hr cfg co]
        · have hn100 : 100 ≤ n := by omega
          have hb := maxItem_relevant_bounds cfg.scale n hn100
          have hq :
              n / (maxItem (relevant_vocabulary cfg.scale.vocabulary n)).1
                < f := by
            have := Nat.div_lt_self (show 0 < n by omega) (show 1 <
              (maxItem (relevant_vocabulary cfg.scale.vocabulary n)).1
              by omega)
            omega
          have hrr :
              n % (maxItem (relevant_vocabulary cfg.scale.vocabulary n)).1
                < f := by
            have := Nat.mod_lt n (show 0 <
              (maxItem (relevant_vocabulary cfg.scale.vocabulary n)).1
              by omega)
            omega
          conv_rhs => rw [int2enNat]
          simp [int2enFuel, h0, h1, h2, ih _ hq cfg Cardinal, ih _ hrr cfg co]

/-- `int2enNat` computes as the fuel evaluator with fuel `n + 1`:
the form in which concrete renderings are evaluated. -/
theorem int2enNat_eq_fuel (cfg : Config) (co : NumType) (n : Nat) :
    int2enNat cfg co n = int2enFuel (n + 1) cfg co n :=
  (int2enFuel_eq (n + 1) n (Nat.lt_succ_self n) cfg co).symm

/-- Reference table for the claim on 0–999: the twenty irregular
small-number words of standard English, written out. -/
def refOnes : Nat → String
  | 0 => "zero"
  | 1 => "one"
  | 2 => "two"
  | 3 => "three"
  | 4 => "four"
  | 5 => "five"
  | 6 => "six"
  | 7 => "seven"
  | 8 => "eight"
  | 9 => "nine"
  | 10 => "ten"
  | 11 => "eleven"
  | 12 => "twelve"
  | 13 => "thirteen"
  | 14 => "fourteen"
  | 15 => "fifteen"
  | 16 => "sixteen"
  | 17 => "seventeen"
  | 18 => "eighteen"
  | 19 => "nineteen"
  | _ => ""

/-- Reference table: the multiples of ten, written out. -/
def refTens : Nat → String
  | 2 => "twenty"
  | 3 => "thirty"
  | 4 => "forty"
  | 5 => "fifty"
  | 6 => "sixty"
  | 7 => "seventy"
  | 8 => "eighty"
  | 9 => "ninety"
  | _ => ""

/-- The standard English cardinal below one hundred, with a hyphen
between tens word and ones word. -/
def refSub100 (n : Nat) : String :=
  if n < 20 then refOnes n
  else if n % 10 = 0 then refTens (n / 10)
  else refTens (n / 10) ++ "-" ++ refOnes (n % 10)

/-- The standard English cardinal for 0–999 under the default
conventions (hyphen linker, `and` before a sub-100 remainder): the
fixed reference table of the specification, written independently of
the renderer. -/
def refCardinal (n : Nat) : String :=
  if n < 100 then refSub100 n
  else refOnes (n / 100) ++ " hundred" ++
    (if n % 100 = 0 then "" else " and " ++ refSub100 (n % 100))


set_option maxRecDepth 10000

/-- C1: For every integer in [0, 999], cardinal rendering under the
Short scale with the default configuration matches the standard
English reference table; in particular 0 ↦ zero, 11 ↦ eleven,
21 ↦ twenty-one, 100 ↦ one hundred, 118 ↦ one hundred and eighteen,
and the teen and ty suffix morphology rules (fifteen/fifty,
eighteen/eighty, and the roots thir, twen, for) hold. -/
theorem claim1_cardinal_0_to_999 :
    (∀ n : Fin 1000,
      (int2enNat defaultCfg Cardinal n.val).1 = refCardinal n.val) ∧
    (int2enNat defaultCfg Cardinal 0).1 = "zero" ∧
    (int2enNat defaultCfg Cardinal 11).1 = "eleven" ∧
    (int2enNat defaultCfg Cardinal 21).1 = "twenty-one" ∧
    (int2enNat defaultCfg Cardinal 100).1 = "one hundred" ∧
    (int2enNat defaultCfg Cardinal 118).1 = "one hundred and eighteen" ∧
    teen "five" = "fifteen" ∧ teen "eight" = "eighteen" ∧
    ty "five" = "fifty" ∧ ty "eight" = "eighty" ∧
    teenCard 3 = teen "thir" ∧ teenCard 3 = "thirteen" ∧
    tens 2 = "twenty" ∧ tens 3 = "thirty" ∧ tens 4 = "forty" := by
  simp only [int2enNat_eq_fuel]
  decide

/-- C4: the irregular ordinal special cases, with the irregular
overrides (first, second, third) taking precedence over the generic
th-suffix morphology. -/
theorem claim4_ordinal_irregulars :
    (int2enNat defaultCfg Ordinal 1).1 = "first" ∧
    (int2enNat defaultCfg Ordinal 2).1 = "second" ∧
    (int2enNat defaultCfg Ordinal 3).1 = "third" ∧
    (int2enNat defaultCfg Ordinal 5).1 = "fifth" ∧
    (int2enNat defaultCfg Ordinal 9).1 = "ninth" ∧
    (int2enNat defaultCfg Ordinal 12).1 = "twelfth" ∧
    (int2enNat defaultCfg Ordinal 20).1 = "twentieth" ∧
    ord0to9 1 = st "fir" ∧ ord0to9 2 = "second" ∧ ord0to9 3 = "third" ∧
    ord0to9 1 ≠ th "one" ∧ ord0to9 2 ≠ th "two" ∧ ord0to9 3 ≠ th "three" := by
  simp only [int2enNat_eq_fuel]
  decide

/-- C6: the Short scale maps prefix index `n` to exponent `3n + 3`
and the Long scale to exponents `6n` (illion) and `6n + 3` (illiard);
the named thresholds include Short million at 10^6 and billion at
10^9, Long billion at 10^12, and Long milliard at 10^9, equal to the
Short billion threshold. -/
theorem claim6_scale_thresholds :
    (∀ n : Nat, ShortScale.illion n = 3 * n + 3) ∧
    (∀ n : Nat, LongScale.illion n = 6 * n) ∧
    (∀ n : Nat, LongScale.illiard n = 6 * n + 3) ∧
    (10 ^ 6, "million") ∈ ShortScale.vocabulary ∧
    (10 ^ 9, "billion") ∈ ShortScale.vocabulary ∧
    (10 ^ 6, "million") ∈ LongScale.vocabulary ∧
    (10 ^ 12, "billion") ∈ LongScale.vocabulary ∧
    (10 ^ 9, "milliard") ∈ LongScale.vocabulary := by
  refine ⟨fun n => ?_, fun n => ?_, fun n => ?_, ?_, ?_, ?_, ?_, ?_⟩
  · simp [ShortScale.illion, grouping]
  · simp [LongScale.illion, grouping]
  · simp [LongScale.illiard, grouping]
  all_goals decide


/-- `int2en` on a non-negative input: the assertion is not reached and
the result is the non-negative renderer. -/
theorem int2en_nonneg (cfg : Config) (co : NumType) (i : Int) (h : 0 ≤ i) :
    int2en cfg co i = some (int2enNat cfg co i.toNat) := by
  rw [int2en, if_neg (by omega)]

/-- `int2en` on a negative input under a recognized negation word:
the negation word and a space are prepended to the rendering of
`-i`. -/
theorem int2en_neg_valid (cfg : Config) (co : NumType) (i : Int)
    (h : i < 0)
    (hw : cfg.negative_or_minus = "negative" ∨
      cfg.negative_or_minus = "minus") :
    int2en cfg co i =
      some (cfg.negative_or_minus ++ " " ++ (int2enNat cfg co (-i).toNat).1,
        (int2enNat cfg co (-i).toNat).2) := by
  rw [int2en, if_pos h, if_pos hw, int2en_nonneg cfg co (-i) (by omega)]
  rfl

/-- A number has a relevant vocabulary entry exactly when it is at
least `100`, the least threshold of every scale. -/
theorem relevant_ne_nil_iff (sc : ScaleCls) (r : Nat) :
    relevant_vocabulary sc.vocabulary r ≠ [] ↔ 100 ≤ r := by
  constructor
  · intro h
    obtain ⟨e, he⟩ := List.exists_mem_of_ne_nil _ h
    have hm := List.mem_filter.mp he
    exact Nat.le_trans (vocabulary_key_ge_100 sc e hm.1) (by simpa using hm.2)
  · intro h
    exact List.ne_nil_of_mem
      (List.mem_filter.mpr ⟨hundred_mem_vocabulary sc, by simpa using h⟩)

/-- The negation word never enters the non-negative renderer: the
fuel evaluator is unchanged under replacing it. -/
theorem int2enFuel_neg_word (fuel : Nat) :
    ∀ (cfg : Config) (w : String) (co : NumType) (n : Nat),
      int2enFuel fuel { cfg with negative_or_minus := w } co n =
        int2enFuel fuel cfg co n := by
  induction fuel with
  | zero => intro cfg w co n; rfl
  | succ f ih =>
    intro cfg w co n
    simp [int2enFuel, ih]

/-- The negation word never enters `int2enNat`. -/
theorem int2enNat_neg_word (cfg : Config) (w : String) (co : NumType)
    (n : Nat) :
    int2enNat { cfg with negative_or_minus := w } co n =
      int2enNat cfg co n := by
  rw [int2enNat_eq_fuel, int2enNat_eq_fuel]
  exact int2enFuel_neg_word (n + 1) cfg w co n

/-- C5: for every positive integer and every configuration with a
recognized negation word, rendering `-i` yields the negation word, a
space, and the rendering of `i`. -/
theorem claim5_negation (cfg : Config) (co : NumType) (i : Int)
    (hi : 0 < i)
    (hw : cfg.negative_or_minus = "negative" ∨
      cfg.negative_or_minus = "minus") :
    (int2en cfg co (-i)).map Prod.fst =
      (int2en cfg co i).map
        (fun sw => cfg.negative_or_minus ++ " " ++ sw.1) := by
  rw [int2en_neg_valid cfg co (-i) (by omega) hw,
    int2en_nonneg cfg co i (by omega)]
  simp

/-- Witness for C5 at `i = 5` under the default configuration. -/
theorem claim5_negation_witness :
    (0 < (5 : Int)) ∧
    ((int2en defaultCfg Cardinal (-5)).map Prod.fst =
      (int2en defaultCfg Cardinal 5).map
        (fun sw => defaultCfg.negative_or_minus ++ " " ++ sw.1)) :=
  ⟨by norm_num, claim5_negation defaultCfg Cardinal 5 (by norm_num)
    (Or.inl rfl)⟩

/-- C8, counterexample: a configuration whose negation word is `foo`
is not rejected before rendering — a non-negative input renders
normally — and the rejection (the failed assertion, modelled as
`none`) happens mid-render, on a negative input. -/
theorem claim8_counterexample :
    int2en { defaultCfg with negative_or_minus := "foo" } Cardinal 5 =
      some ("five", []) ∧
    int2en { defaultCfg with negative_or_minus := "foo" } Cardinal (-5) =
      none := by
  constructor
  · rw [int2en_nonneg _ _ _ (by norm_num)]
    rw [int2enNat_eq_fuel]
    decide
  · rw [int2en, if_pos (by norm_num : (-5 : Int) < 0), if_neg (by decide)]

/-- C8, amended: the negation word is validated only mid-render, when
a negative input is rendered; with an unrecognized negation word a
non-negative input still renders successfully, and a negative input
fails at that point (the assertion, modelled as `none`). -/
theorem claim8_validation_mid_render (cfg : Config) (co : NumType) (i : Int)
    (hw : ¬(cfg.negative_or_minus = "negative" ∨
      cfg.negative_or_minus = "minus")) :
    (0 ≤ i → int2en cfg co i = some (int2enNat cfg co i.toNat)) ∧
    (i < 0 → int2en cfg co i = none) := by
  refine ⟨fun h => int2en_nonneg cfg co i h, fun h => ?_⟩
  rw [int2en, if_pos h, if_neg hw]

/-- Witness for amended C8 at the negation word `foo` and input
`-5`. -/
theorem claim8_validation_witness :
    (0 ≤ (-5 : Int) →
      int2en { defaultCfg with negative_or_minus := "foo" } Cardinal (-5) =
        some (int2enNat { defaultCfg with negative_or_minus := "foo" }
          Cardinal (-5 : Int).toNat)) ∧
    ((-5 : Int) < 0 →
      int2en { defaultCfg with negative_or_minus := "foo" } Cardinal (-5) =
        none) :=
  claim8_validation_mid_render { defaultCfg with negative_or_minus := "foo" }
    Cardinal (-5) (by decide)

/-- C9: the renderer is total — for every integer and every
configuration with a recognized negation word it returns a string
(with its diagnostics), never failing. -/
theorem claim9_total (cfg : Config) (co : NumType) (i : Int)
    (hw : cfg.negative_or_minus = "negative" ∨
      cfg.negative_or_minus = "minus") :
    ∃ sw : String × List String, int2en cfg co i = some sw := by
  by_cases h : i < 0
  · exact ⟨_, int2en_neg_valid cfg co i h hw⟩
  · exact ⟨_, int2en_nonneg cfg co i (by omega)⟩

/-- Witness for C9 at `i = -42` under the default configuration. -/
theorem claim9_total_witness :
    ∃ sw : String × List String,
      int2en defaultCfg Cardinal (-42) = some sw :=
  claim9_total defaultCfg Cardinal (-42) (Or.inl rfl)

/-- C10: on non-negative inputs the negation word is never inspected:
any two values of it (recognized or not) produce the same successful
result. -/
theorem claim10_neg_word_unused (cfg : Config) (w1 w2 : String)
    (co : NumType) (i : Int) (hi : 0 ≤ i) :
    int2en { cfg with negative_or_minus := w1 } co i =
      int2en { cfg with negative_or_minus := w2 } co i ∧
    ∃ sw : String × List String,
      int2en { cfg with negative_or_minus := w1 } co i = some sw := by
  have h1 := int2en_nonneg { cfg with negative_or_minus := w1 } co i hi
  have h2 := int2en_nonneg { cfg with negative_or_minus := w2 } co i hi
  refine ⟨?_, ⟨_, h1⟩⟩
  rw [h1, h2, int2enNat_neg_word cfg w1 co i.toNat,
    int2enNat_neg_word cfg w2 co i.toNat]

/-- Witness for C10: the unrecognized word `foo` versus `minus`, at
`i = 7`. -/
theorem claim10_neg_word_witness :
    (int2en { defaultCfg with negative_or_minus := "foo" } Cardinal 7 =
      int2en { defaultCfg with negative_or_minus := "minus" } Cardinal 7) ∧
    ∃ sw : String × List String,
      int2en { defaultCfg with negative_or_minus := "foo" } Cardinal 7 =
        some sw :=
  claim10_neg_word_unused defaultCfg "foo" "minus" Cardinal 7 (by norm_num)


/-- The rendered string does not depend on `do_warn` (fuel form): the
diagnostic is a side channel. -/
theorem int2enFuel_fst_do_warn (fuel : Nat) :
    ∀ (cfg : Config) (b : Bool) (co : NumType) (n : Nat),
      (int2enFuel fuel { cfg with do_warn := b } co n).1 =
        (int2enFuel fuel cfg co n).1 := by
  induction fuel with
  | zero => intro cfg b co n; rfl
  | succ f ih =>
    intro cfg b co n
    simp [int2enFuel, ih, apply_ite (fun p : String × List String => p.1)]

/-- The rendered string does not depend on `do_warn`. -/
theorem int2enNat_fst_do_warn (cfg : Config) (b : Bool) (co : NumType)
    (n : Nat) :
    (int2enNat { cfg with do_warn := b } co n).1 =
      (int2enNat cfg co n).1 := by
  rw [int2enNat_eq_fuel, int2enNat_eq_fuel]
  exact int2enFuel_fst_do_warn (n + 1) cfg b co n

/-- With `do_warn` unset, no diagnostic is ever emitted (fuel form). -/
theorem int2enFuel_snd_no_warn (fuel : Nat) :
    ∀ (cfg : Config) (co : NumType) (n : Nat), cfg.do_warn = false →
      (int2enFuel fuel cfg co n).2 = [] := by
  induction fuel with
  | zero => intro cfg co n h; rfl
  | succ f ih =>
    intro cfg co n h
    simp [int2enFuel, h, ih cfg _ _ h,
      apply_ite (fun p : String × List String => p.2)]

/-- With `do_warn` unset, no diagnostic is ever emitted. -/
theorem int2enNat_snd_no_warn (cfg : Config) (co : NumType) (n : Nat)
    (h : cfg.do_warn = false) : (int2enNat cfg co n).2 = [] := by
  rw [int2enNat_eq_fuel]
  exact int2enFuel_snd_no_warn (n + 1) cfg co n h

/-- C7: scale overflow never fails.  The rendered string is the same
whether or not `do_warn` is set; with `do_warn` unset nothing is
emitted; with `do_warn` set and the quotient at the top magnitude at
least that magnitude's threshold, a diagnostic is emitted; and at the
overflowing input `10^78` the Short scale still returns the composed
`duodecillion duodecillion` string. -/
theorem claim7_overflow_policy :
    (∀ (cfg : Config) (b : Bool) (co : NumType) (n : Nat),
      (int2enNat { cfg with do_warn := b } co n).1 =
        (int2enNat cfg co n).1) ∧
    (∀ (cfg : Config) (co : NumType) (n : Nat), cfg.do_warn = false →
      (int2enNat cfg co n).2 = []) ∧
    (∀ (cfg : Config) (co : NumType) (n : Nat), cfg.do_warn = true →
      100 ≤ n →
      (maxItem (relevant_vocabulary cfg.scale.vocabulary n)).1 ≤
        n / (maxItem (relevant_vocabulary cfg.scale.vocabulary n)).1 →
      (int2enNat cfg co n).2 ≠ []) ∧
    (int2enNat { defaultCfg with do_warn := true } Cardinal
        (10 ^ 78)).1 = "one duodecillion duodecillion" := by
  refine ⟨int2enNat_fst_do_warn, int2enNat_snd_no_warn, ?_, ?_⟩
  · intro cfg co n hw hn hov
    conv_lhs => rw [int2enNat]
    have h0 : ¬n / 10 = 0 := by omega
    have h1 : ¬n / 10 = 1 := by omega
    have h2 : ¬n / 10 < 10 := by omega
    simp only [if_neg h0, if_neg h1, if_neg h2, if_pos (And.intro hw hov)]
    by_cases hr : n % (maxItem (relevant_vocabulary cfg.scale.vocabulary n)).1
        = 0
    · simp [hr]
    · simp [hr]
  · rw [int2enNat_eq_fuel]
    decide

/-- Witness for C7: at `10^78` under the Short scale the top name is
`duodecillion` at `10^39` and the quotient `10^39` reaches it; with
`do_warn` set a diagnostic is emitted, with it unset none is, and the
string agrees between the two. -/
theorem claim7_overflow_witness :
    (int2enNat { defaultCfg with do_warn := true } Cardinal (10 ^ 78)).2 ≠
      [] ∧
    (int2enNat defaultCfg Cardinal (10 ^ 78)).2 = [] ∧
    (int2enNat { defaultCfg with do_warn := true } Cardinal (10 ^ 78)).1 =
      (int2enNat defaultCfg Cardinal (10 ^ 78)).1 :=
  ⟨claim7_overflow_policy.2.2.1 { defaultCfg with do_warn := true } Cardinal
      (10 ^ 78) rfl (by norm_num) (by decide),
    claim7_overflow_policy.2.1 defaultCfg Cardinal (10 ^ 78) rfl,
    claim7_overflow_policy.1 defaultCfg true Cardinal (10 ^ 78)⟩


/-- C2: for every input of at least 100, the renderer splits by the
greatest vocabulary threshold not exceeding the input (`maxItem` picks
a member of the relevant vocabulary that dominates every entry), a
remainder has a relevant-vocabulary entry exactly when it is at least
100, and a nonzero remainder is joined to the head with the thousands
separator exactly in that case, else with ` and ` under `do_say_and`,
else with a space; with the documented concrete renderings of 1500,
1500000 and 1001. -/
theorem claim2_magnitude_split (cfg : Config) (co : NumType) (n : Nat)
    (hn : 100 ≤ n) :
    (maxItem (relevant_vocabulary cfg.scale.vocabulary n) ∈
        relevant_vocabulary cfg.scale.vocabulary n ∧
      ∀ e ∈ relevant_vocabulary cfg.scale.vocabulary n,
        e.1 ≤ (maxItem (relevant_vocabulary cfg.scale.vocabulary n)).1) ∧
    (relevant_vocabulary cfg.scale.vocabulary
        (n % (maxItem (relevant_vocabulary cfg.scale.vocabulary n)).1) ≠ []
      ↔ 100 ≤ n % (maxItem (relevant_vocabulary cfg.scale.vocabulary n)).1) ∧
    (n % (maxItem (relevant_vocabulary cfg.scale.vocabulary n)).1 ≠ 0 →
      (int2enNat cfg co n).1 =
        (let pn := maxItem (relevant_vocabulary cfg.scale.vocabulary n)
         let head := (int2enNat cfg Cardinal (n / pn.1)).1 ++ " " ++ pn.2
         let tail := (int2enNat cfg co (n % pn.1)).1
         if 100 ≤ n % pn.1 then
           head ++ cfg.thousands_separator ++ " " ++ tail
         else if cfg.do_say_and = true then head ++ " and " ++ tail
         else head ++ " " ++ tail)) ∧
    (int2enNat defaultCfg Cardinal 1500).1 = "one thousand, five hundred" ∧
    (int2enNat defaultCfg Cardinal 1500000).1 =
      "one million, five hundred thousand" ∧
    (int2enNat defaultCfg Cardinal 1001).1 = "one thousand and one" := by
  have hb := maxItem_relevant_bounds cfg.scale n hn
  refine ⟨⟨?_, ?_⟩, relevant_ne_nil_iff cfg.scale _, ?_, ?_, ?_, ?_⟩
  · rcases foldl_maxStep_mem (relevant_vocabulary cfg.scale.vocabulary n)
      (0, "") with h | h
    · rw [maxItem, h] at hb
      omega
    · exact h
  · intro e he
    exact fst_mem_le_foldl_maxStep _ _ e he
  · intro hr
    have h0 : ¬n / 10 = 0 := by omega
    have h1 : ¬n / 10 = 1 := by omega
    have h2 : ¬n / 10 < 10 := by omega
    conv_lhs => rw [int2enNat]
    simp only [if_neg h0, if_neg h1, if_neg h2, if_neg hr,
      relevant_ne_nil_iff cfg.scale]
  · rw [int2enNat_eq_fuel]; decide
  · rw [int2enNat_eq_fuel]; decide
  · rw [int2enNat_eq_fuel]; decide

/-- Witness for C2 at input 1500 under the default configuration. -/
theorem claim2_magnitude_witness :
    (int2enNat defaultCfg Cardinal 1500).1 = "one thousand, five hundred" :=
  (claim2_magnitude_split defaultCfg Cardinal 1500 (by norm_num)).2.2.2.1

/-- C3: in ordinal mode, for every input of at least 100, the quotient
before the scale name is rendered in cardinal mode; with a zero
remainder the head (ending in the scale name) receives the `th`
transformation, and with a nonzero remainder the ordinal mode is
passed only to the remainder sub-render; in particular 101 renders to
`one hundred and first`, not `one hundredth and one`. -/
theorem claim3_ordinal_threading (cfg : Config) (n : Nat) (hn : 100 ≤ n) :
    (n % (maxItem (relevant_vocabulary cfg.scale.vocabulary n)).1 = 0 →
      (int2enNat cfg Ordinal n).1 =
        th ((int2enNat cfg Cardinal
            (n / (maxItem (relevant_vocabulary cfg.scale.vocabulary n)).1)).1
          ++ " " ++ (maxItem (relevant_vocabulary cfg.scale.vocabulary n)).2)) ∧
    (n % (maxItem (relevant_vocabulary cfg.scale.vocabulary n)).1 ≠ 0 →
      ∃ sep : String,
        (sep = cfg.thousands_separator ++ " " ∨ sep = " and " ∨ sep = " ") ∧
        (int2enNat cfg Ordinal n).1 =
          ((int2enNat cfg Cardinal
              (n / (maxItem (relevant_vocabulary cfg.scale.vocabulary n)).1)).1
            ++ " " ++ (maxItem (relevant_vocabulary cfg.scale.vocabulary n)).2)
          ++ sep ++ (int2enNat cfg Ordinal
            (n % (maxItem (relevant_vocabulary cfg.scale.vocabulary n)).1)).1)
    ∧
    (int2enNat defaultCfg Ordinal 101).1 = "one hundred and first" ∧
    (int2enNat defaultCfg Ordinal 101).1 ≠ "one hundredth and one" ∧
    (int2enNat defaultCfg Ordinal 100).1 = "one hundredth" ∧
    (int2enNat defaultCfg Ordinal 1000).1 = "one thousandth" := by
  have h0 : ¬n / 10 = 0 := by omega
  have h1 : ¬n / 10 = 1 := by omega
  have h2 : ¬n / 10 < 10 := by omega
  refine ⟨?_, ?_, ?_, ?_, ?_, ?_⟩
  · intro hr
    conv_lhs => rw [int2enNat]
    simp only [if_neg h0, if_neg h1, if_neg h2, if_pos hr]
    simp
  · intro hr
    by_cases hrel : relevant_vocabulary cfg.scale.vocabulary
        (n % (maxItem (relevant_vocabulary cfg.scale.vocabulary n)).1) = []
    · by_cases hsay : cfg.do_say_and = true
      · refine ⟨" and ", Or.inr (Or.inl rfl), ?_⟩
        conv_lhs => rw [int2enNat]
        simp only [if_neg h0, if_neg h1, if_neg h2, if_neg hr]
        simp [hrel, hsay]
      · refine ⟨" ", Or.inr (Or.inr rfl), ?_⟩
        conv_lhs => rw [int2enNat]
        simp only [if_neg h0, if_neg h1, if_neg h2, if_neg hr]
        simp [hrel, hsay]
    · refine ⟨cfg.thousands_separator ++ " ", Or.inl rfl, ?_⟩
      conv_lhs => rw [int2enNat]
      simp only [if_neg h0, if_neg h1, if_neg h2, if_neg hr]
      simp [hrel, String.append_assoc]
  · rw [int2enNat_eq_fuel]; decide
  · rw [int2enNat_eq_fuel]; decide
  · rw [int2enNat_eq_fuel]; decide
  · rw [int2enNat_eq_fuel]; decide

/-- Witness for C3 at input 101 under the default configuration. -/
theorem claim3_ordinal_witness :
    (int2enNat defaultCfg Ordinal 101).1 = "one hundred and first" :=
  (claim3_ordinal_threading defaultCfg 101 (by norm_num)).2.2.1

end Int2En
